import Mathlib

/-!
Shallow embedding of `src/monitor_v2.py` (gpu_monitor): a peer-to-peer
liveness monitor.  Timestamps are modelled as `Nat` seconds since the
epoch (the Python code uses `datetime` values in UTC; differences and
comparisons of `datetime`/`timedelta` values become `Nat` subtraction
and comparison of second counts, with `x / 60 >= 3` rewritten to the
equivalent `180 <= x`, `int(seconds / 60)` to `seconds / 60` on `Nat`,
and `> timedelta(hours=2)` to `7200 < x`).  The two Mongo collections
become association lists keyed by peer ip; network calls, the clock and
store-failure events become an explicit environment oracle passed to
each tick.
-/

namespace GpuMonitor

/-- Configuration constants of `monitor_v2.py` (lines 47-50). -/
def CONFIRMATION_DELAY_MINUTES : Nat := 3

def REMINDER_INTERVAL_HOURS : Nat := 2

def MAX_RETRIES : Nat := 3

def INITIAL_BACKOFF_SECONDS : Nat := 10

/-- A configured target: `{"ip": ..., "name": ...}` (lines 32-41). -/
structure Target where
  ip : String
  name : String
deriving Repr, DecidableEq

/-- An active incident document stored in the `crashes` collection,
keyed by peer ip (the Mongo `_id`), as written by the upsert at
lines 200-211. -/
structure IncidentRecord where
  status : String
  targetName : String
  downSince : Nat
  lastAlertSentAt : Option Nat
  witnesses : List String
deriving Repr, DecidableEq

/-- A resolved incident document in the `crash_history` collection:
a copy of the `IncidentRecord` with `status`, `recovered_at` and a
fresh `_id` (lines 182-186). -/
structure HistoryRecord where
  key : String
  status : String
  targetName : String
  downSince : Nat
  lastAlertSentAt : Option Nat
  witnesses : List String
  recoveredAt : Nat
deriving Repr, DecidableEq

/-- The document store: the `crashes` (active) collection as an
association list keyed by ip, and the `crash_history` collection as an
append-only list. -/
structure Store where
  active : List (String × IncidentRecord)
  history : List HistoryRecord
deriving Repr, DecidableEq

/-- The messages passed to `send_slack_alert`, abstracted to their
distinguishing data: which kind of alert, and the fields interpolated
into the message text. -/
inductive Alert where
  | isolation (serverId : String)
  | reconnected (serverId : String)
  | crash (name ip : String) (downMins : Nat) (witnesses : List String)
      (isReminder : Bool)
  | recovery (name ip : String) (downMins : Nat)
deriving Repr, DecidableEq

/-! ### Association-list primitives (the Mongo operations used by the code:
`find_one({"_id": k})`, `update_one(..., upsert=True)` on a key,
`delete_one({"_id": k})`). The active collection always holds at most one
document per `_id`, which these operations preserve. -/

/-- `find_one({"_id": k})`. -/
def assocFind {α : Type} : List (String × α) → String → Option α
  | [], _ => none
  | (k, v) :: rest, key => if k = key then some v else assocFind rest key

/-- Replace the value at a key, or append the pair if the key is absent
(the effect of `update_one` with `upsert=True` on a keyed document). -/
def assocSet {α : Type} : List (String × α) → String → α → List (String × α)
  | [], key, v => [(key, v)]
  | (k, w) :: rest, key, v =>
      if k = key then (k, v) :: rest else (k, w) :: assocSet rest key v

/-- `delete_one({"_id": k})`: remove the document at a key. -/
def assocDel {α : Type} : List (String × α) → String → List (String × α)
  | [], _ => []
  | (k, w) :: rest, key =>
      if k = key then rest else (k, w) :: assocDel rest key

@[simp] theorem assocFind_nil {α : Type} (key : String) :
    assocFind ([] : List (String × α)) key = none := rfl

@[simp] theorem assocFind_cons {α : Type} (k : String) (v : α)
    (rest : List (String × α)) (key : String) :
    assocFind ((k, v) :: rest) key =
      if k = key then some v else assocFind rest key := rfl

theorem assocFind_set_self {α : Type} (l : List (String × α)) (key : String)
    (v : α) : assocFind (assocSet l key v) key = some v := by
  induction l with
  | nil => simp [assocSet]
  | cons hd tl ih =>
      obtain ⟨k, w⟩ := hd
      by_cases h : k = key <;> simp [assocSet, h, ih]

theorem assocFind_set_other {α : Type} (l : List (String × α))
    (key key' : String) (v : α) (hne : key ≠ key') :
    assocFind (assocSet l key v) key' = assocFind l key' := by
  induction l with
  | nil => simp [assocSet, hne]
  | cons hd tl ih =>
      obtain ⟨k, w⟩ := hd
      by_cases h : k = key
      · subst h; simp [assocSet, hne]
      · simp [assocSet, h, ih]

theorem assocFind_eq_none_of_not_mem {α : Type} (l : List (String × α))
    (key : String) (h : key ∉ l.map Prod.fst) :
    assocFind l key = none := by
  induction l with
  | nil => rfl
  | cons hd tl ih =>
      obtain ⟨k, w⟩ := hd
      simp only [List.map_cons, List.mem_cons] at h
      push_neg at h
      simp only [assocFind_cons, if_neg (Ne.symm h.1), ih h.2]

theorem assocFind_del_self {α : Type} (l : List (String × α)) (key : String)
    (huniq : (l.map Prod.fst).Nodup) :
    assocFind (assocDel l key) key = none := by
  induction l with
  | nil => simp [assocDel]
  | cons hd tl ih =>
      obtain ⟨k, w⟩ := hd
      simp only [List.map_cons, List.nodup_cons] at huniq
      by_cases h : k = key
      · subst h
        simp only [assocDel, if_pos rfl]
        exact assocFind_eq_none_of_not_mem tl k huniq.1
      · simp only [assocDel, if_neg h, assocFind_cons, if_neg h]
        exact ih huniq.2

theorem assocFind_del_other {α : Type} (l : List (String × α))
    (key key' : String) (hne : key ≠ key') :
    assocFind (assocDel l key) key' = assocFind l key' := by
  induction l with
  | nil => simp [assocDel]
  | cons hd tl ih =>
      obtain ⟨k, w⟩ := hd
      by_cases h : k = key
      · subst h; simp [assocDel, hne, ih]
      · simp [assocDel, h, ih]

/-! ### Crash/recovery engine (lines 147-246 of `monitor_v2.py`) -/

/-- Mongo `$addToSet`: append the element unless already present. -/
def addToSet (l : List String) (x : String) : List String :=
  if x ∈ l then l else l ++ [x]

/-- The `update_one(..., upsert=True)` at lines 200-211: `$set` status and
target_name, `$setOnInsert` down_since and last_alert_sent_at (so these
are written only when the document is first created), `$addToSet` the
local server id to witnesses. -/
def upsertDown (active : List (String × IncidentRecord))
    (ip name serverId : String) (now : Nat) : List (String × IncidentRecord) :=
  match assocFind active ip with
  | some r => assocSet active ip
      { r with status := "down", targetName := name,
               witnesses := addToSet r.witnesses serverId }
  | none => assocSet active ip
      { status := "down", targetName := name, downSince := now,
        lastAlertSentAt := none, witnesses := addToSet [] serverId }

/-- Result of processing one peer inside the per-peer `try` block.  The
store is external, so mutations already issued persist even when a later
operation raises: `err` carries the store state at the point the
exception was thrown. -/
inductive PeerResult where
  | ok (s : Store) (alerts : List Alert)
  | err (s : Store) (msg : String)
deriving Repr, DecidableEq

/-- CRASH LOGIC (lines 196-243): upsert the incident, re-read it, and
apply the alert-timing policy.  `current_time` is taken once (line 198)
and passed here as `now`; `time_down >= CONFIRMATION_DELAY_MINUTES`
on minutes(`float`) is `180 <= now - down_since` on seconds, and
`current_time - last_alert > timedelta(hours=2)` is `7200 < now - t`.
`int(time_down)` in the message is `(now - down_since) / 60` on `Nat`.
When the alert fires, `last_alert_sent_at` is set to `now` (line 239)
before the alert is dispatched. -/
def processDown (s : Store) (ip name serverId : String) (now : Nat) :
    Store × List Alert :=
  let active1 := upsertDown s.active ip name serverId now
  match assocFind active1 ip with
  | none => ({ s with active := active1 }, [])
  | some doc =>
      let timeDownSec := now - doc.downSince
      if CONFIRMATION_DELAY_MINUTES * 60 ≤ timeDownSec then
        let shouldAlert :=
          match doc.lastAlertSentAt with
          | none => true
          | some t => decide (REMINDER_INTERVAL_HOURS * 3600 < now - t)
        if shouldAlert then
          ({ s with active := (assocSet active1 ip
                { doc with lastAlertSentAt := some now }) },
           [Alert.crash name ip (timeDownSec / 60) doc.witnesses
              doc.lastAlertSentAt.isSome])
        else ({ s with active := active1 }, [])
      else ({ s with active := active1 }, [])

/-- RECOVERY LOGIC (lines 170-194): if an active incident exists, delete
it, then — only when the down duration was at least one minute — insert
a history copy (`status="resolved"`, `recovered_at`, `_id` derived from
the ip and the resolution timestamp) and emit the recovery alert.
`archiveOk` models whether `history_collection.insert_one` succeeds; on
failure the exception escapes with the delete already applied. -/
def processAlive (s : Store) (ip name : String) (now : Nat)
    (archiveOk : Bool) : PeerResult :=
  match assocFind s.active ip with
  | none => .ok s []
  | some r =>
      let durationMins := (now - r.downSince) / 60
      let active1 := assocDel s.active ip
      if 1 ≤ durationMins then
        if archiveOk then
          .ok { active := active1,
                history := s.history ++
                  [{ key := ip ++ "_" ++ toString now, status := "resolved",
                     targetName := r.targetName, downSince := r.downSince,
                     lastAlertSentAt := r.lastAlertSentAt,
                     witnesses := r.witnesses, recoveredAt := now }] }
            [Alert.recovery name ip durationMins]
        else .err { active := active1, history := s.history }
            "insert_one raised"
      else .ok { active := active1, history := s.history } []

/-! ### Confirmation retry (lines 154-167) -/

/-- The retry loop `for attempt in range(MAX_RETRIES)`: before each ping
attempt the loop sleeps `INITIAL_BACKOFF_SECONDS`; it stops on the first
successful ping.  Returns (is_alive, number of attempts performed);
`ping i` is the oracle outcome of the ping on attempt index `i`. -/
def retryGo (ping : Nat → Bool) : Nat → Nat → Bool × Nat
  | 0, made => (false, made)
  | fuel + 1, made =>
      if ping made then (true, made + 1) else retryGo ping fuel (made + 1)

def retrySeq (ping : Nat → Bool) : Bool × Nat :=
  retryGo ping MAX_RETRIES 0

/-- Total seconds slept in the retry loop: one backoff interval before
each attempt actually performed. -/
def retryWaited (ping : Nat → Bool) : Nat :=
  INITIAL_BACKOFF_SECONDS * (retrySeq ping).2

/-! ### One monitor tick (the body of the `while True` loop, lines 95-248) -/

/-- Per-tick environment oracle: outcomes of the network calls, the
clock, and whether the history insert would succeed, for one iteration
of the loop. -/
structure Env where
  storeAvailable : Bool
  extConn : Bool
  ping1 : Target → Bool
  midConn : Target → Bool
  retryPing : Target → Nat → Bool
  archiveOk : Target → Bool
  nowOf : Target → Nat

/-- Which branch of the loop body the tick took. -/
inductive TickOutcome where
  | waitingForDB
  | pausedNoInternet
  | enteredIsolation
  | stillIsolated
  | normal
deriving Repr, DecidableEq

structure TickResult where
  store : Store
  wasIsolated : Bool
  alerts : List Alert
  errors : List String
  outcome : TickOutcome
deriving Repr, DecidableEq

/-- One peer's turn in the per-peer loop (lines 147-246): start from the
isolation-scan result, run the retry logic when it failed, then the
recovery or crash logic inside the `try` block. -/
def peerStep (env : Env) (serverId : String)
    (peerResults : List (String × Bool)) (t : Target) (s : Store) :
    PeerResult :=
  let initialAlive := (assocFind peerResults t.ip).getD false
  if initialAlive then
    processAlive s t.ip t.name (env.nowOf t) (env.archiveOk t)
  else if env.midConn t then
    if (retrySeq (env.retryPing t)).1 then
      processAlive s t.ip t.name (env.nowOf t) (env.archiveOk t)
    else
      let r := processDown s t.ip t.name serverId (env.nowOf t)
      .ok r.1 r.2
  else
    -- `continue` at line 158: internet died mid-loop, skip this peer
    .ok s []

/-- The per-peer loop with its `try/except` (lines 147-246): an
exception from one peer's processing is caught and logged (line 246) and
the loop moves on to the next peer, keeping whatever store mutations the
failed step had already issued. -/
def runPeers (step : Target → Store → PeerResult) :
    List Target → Store → Store × List Alert × List String
  | [], s => (s, [], [])
  | t :: ts, s =>
      match step t s with
      | .ok s' as =>
          let r := runPeers step ts s'
          (r.1, as ++ r.2.1, r.2.2)
      | .err s' msg =>
          let r := runPeers step ts s'
          (r.1, r.2.1, msg :: r.2.2)

/-- `successful_pings_count` (lines 108-117): incremented once per
target whose scan ping succeeded. -/
def successCount (ping1 : Target → Bool) (targets : List Target) : Nat :=
  targets.foldl (fun n t => if ping1 t then n + 1 else n) 0

/-- The `peer_results` dict built by the scan (line 115), keyed by ip. -/
def scanResults (ping1 : Target → Bool) (targets : List Target) :
    List (String × Bool) :=
  targets.foldl (fun m t => assocSet m t.ip (ping1 t)) []

/-- LOGIC GATE (line 120): `is_isolated = len(TARGETS) > 0 and
successful_pings_count == 0`. -/
def isIsolatedCalc (ping1 : Target → Bool) (targets : List Target) : Bool :=
  decide (0 < targets.length) && (successCount ping1 targets == 0)

/-- The part of the loop body after the `active_collection is None`
guard (lines 102-248). -/
def tickOnline (env : Env) (targets : List Target) (serverId : String)
    (wasIsolated : Bool) (s : Store) : TickResult :=
  if !env.extConn then
    { store := s, wasIsolated := wasIsolated, alerts := [], errors := [],
      outcome := .pausedNoInternet }
  else
    let peerResults := scanResults env.ping1 targets
    let isIsolated := isIsolatedCalc env.ping1 targets
    if isIsolated && !wasIsolated then
      { store := s, wasIsolated := true,
        alerts := [Alert.isolation serverId], errors := [],
        outcome := .enteredIsolation }
    else if isIsolated && wasIsolated then
      { store := s, wasIsolated := true, alerts := [], errors := [],
        outcome := .stillIsolated }
    else
      let reconnectAlerts :=
        if !isIsolated && wasIsolated then [Alert.reconnected serverId]
        else []
      let r := runPeers (peerStep env serverId peerResults) targets s
      { store := r.1, wasIsolated := false,
        alerts := reconnectAlerts ++ r.2.1, errors := r.2.2,
        outcome := .normal }

/-- One iteration of the `while True` loop (lines 95-248), starting with
the `active_collection is None` guard (lines 97-100). -/
def tick (env : Env) (targets : List Target) (serverId : String)
    (wasIsolated : Bool) (s : Store) : TickResult :=
  if !env.storeAvailable then
    { store := s, wasIsolated := wasIsolated, alerts := [], errors := [],
      outcome := .waitingForDB }
  else tickOnline env targets serverId wasIsolated s

/-- Iterated ticks of the monitor loop over a sequence of per-tick
environments, accumulating the alerts sent. -/
def runTicks (targets : List Target) (serverId : String) :
    List Env → Bool → Store → Bool × Store × List Alert
  | [], w, s => (w, s, [])
  | e :: es, w, s =>
      let r := tick e targets serverId w s
      let rest := runTicks targets serverId es r.wasIsolated r.store
      (rest.1, rest.2.1, r.alerts ++ rest.2.2)

/-! ### Derived forms of the engine's operations -/

/-- The effect of the upsert's `$set`/`$addToSet` parts on an existing
document (its `$setOnInsert` fields are untouched). -/
def downUpd (r : IncidentRecord) (name serverId : String) : IncidentRecord :=
  { r with status := "down", targetName := name,
           witnesses := addToSet r.witnesses serverId }

/-- The alert-timing decision of lines 222-227 as a function of the
record's `down_since`, `last_alert_sent_at` and the current time. -/
def alertDue (downSince : Nat) (lastAlert : Option Nat) (now : Nat) : Bool :=
  decide (CONFIRMATION_DELAY_MINUTES * 60 ≤ now - downSince) &&
    match lastAlert with
    | none => true
    | some t => decide (REMINDER_INTERVAL_HOURS * 3600 < now - t)

theorem assocSet_assocSet {α : Type} (l : List (String × α)) (k : String)
    (v w : α) : assocSet (assocSet l k v) k w = assocSet l k w := by
  induction l with
  | nil => simp [assocSet]
  | cons hd tl ih =>
      obtain ⟨k0, w0⟩ := hd
      by_cases h : k0 = k <;> simp [assocSet, h, ih]

theorem mem_addToSet_self (l : List String) (x : String) : x ∈ addToSet l x := by
  unfold addToSet
  by_cases h : x ∈ l
  · rw [if_pos h]; exact h
  · rw [if_neg h]; simp

theorem addToSet_idem (l : List String) (x : String) :
    addToSet (addToSet l x) x = addToSet l x := by
  rw [show addToSet (addToSet l x) x
        = if x ∈ addToSet l x then addToSet l x else addToSet l x ++ [x]
      from rfl]
  rw [if_pos (mem_addToSet_self l x)]

@[simp] theorem downUpd_downSince (r : IncidentRecord) (name sid : String) :
    (downUpd r name sid).downSince = r.downSince := rfl

@[simp] theorem downUpd_lastAlert (r : IncidentRecord) (name sid : String) :
    (downUpd r name sid).lastAlertSentAt = r.lastAlertSentAt := rfl

@[simp] theorem downUpd_witnesses (r : IncidentRecord) (name sid : String) :
    (downUpd r name sid).witnesses = addToSet r.witnesses sid := rfl

theorem downUpd_idem (r : IncidentRecord) (name sid : String) :
    downUpd (downUpd r name sid) name sid = downUpd r name sid := by
  simp [downUpd, addToSet_idem]

/-- `processDown` on a peer that already has an active incident: the
record keeps its `down_since` and (unless the alert fires) its
`last_alert_sent_at`; the alert fires exactly when `alertDue`, and then
carries the accumulated witness set and the reminder marker. -/
theorem processDown_existing (s : Store) (ip name sid : String) (now : Nat)
    (r : IncidentRecord) (h : assocFind s.active ip = some r) :
    processDown s ip name sid now =
      if alertDue r.downSince r.lastAlertSentAt now then
        ({ s with active := (assocSet s.active ip
              { status := "down", targetName := name,
                downSince := r.downSince, lastAlertSentAt := some now,
                witnesses := addToSet r.witnesses sid }) },
         [Alert.crash name ip ((now - r.downSince) / 60)
            (addToSet r.witnesses sid) r.lastAlertSentAt.isSome])
      else ({ s with active := assocSet s.active ip (downUpd r name sid) }, []) := by
  simp only [processDown, upsertDown, h, assocFind_set_self]
  by_cases h1 : CONFIRMATION_DELAY_MINUTES * 60 ≤ now - r.downSince
  · cases hla : r.lastAlertSentAt with
    | none => simp [alertDue, h1, hla, downUpd, assocSet_assocSet]
    | some t =>
        by_cases h2 : REMINDER_INTERVAL_HOURS * 3600 < now - t
        · simp [alertDue, h1, hla, h2, downUpd, assocSet_assocSet]
        · simp [alertDue, h1, hla, h2, downUpd]
  · cases hla : r.lastAlertSentAt <;>
      simp [alertDue, h1, hla, downUpd]

/-- `processDown` on a peer with no active incident: the upsert creates
the record with `down_since = now`, `last_alert_sent_at = null` and the
local instance as sole witness; `time_down = 0`, so no alert fires. -/
theorem processDown_new (s : Store) (ip name sid : String) (now : Nat)
    (h : assocFind s.active ip = none) :
    processDown s ip name sid now =
      ({ s with active := (assocSet s.active ip
            { status := "down", targetName := name, downSince := now,
              lastAlertSentAt := none, witnesses := [sid] }) }, []) := by
  simp only [processDown, upsertDown, h, assocFind_set_self]
  simp [addToSet, CONFIRMATION_DELAY_MINUTES]

/-- The history document built at lines 182-185: a copy of the incident
with `status="resolved"`, `recovered_at`, and the derived `_id`. -/
def histOf (ip : String) (r : IncidentRecord) (now : Nat) : HistoryRecord :=
  { key := ip ++ "_" ++ toString now, status := "resolved",
    targetName := r.targetName, downSince := r.downSince,
    lastAlertSentAt := r.lastAlertSentAt, witnesses := r.witnesses,
    recoveredAt := now }

theorem processAlive_none (s : Store) (ip name : String) (now : Nat)
    (aok : Bool) (h : assocFind s.active ip = none) :
    processAlive s ip name now aok = .ok s [] := by
  simp [processAlive, h]

theorem one_le_div_sixty (x : Nat) : 1 ≤ x / 60 ↔ 60 ≤ x := by
  rw [Nat.le_div_iff_mul_le (by norm_num : 0 < 60)]

theorem processAlive_some_long (s : Store) (ip name : String) (now : Nat)
    (r : IncidentRecord) (h : assocFind s.active ip = some r)
    (hd : 60 ≤ now - r.downSince) :
    processAlive s ip name now true =
      .ok { active := assocDel s.active ip,
            history := s.history ++ [histOf ip r now] }
        [Alert.recovery name ip ((now - r.downSince) / 60)] := by
  simp [processAlive, h, histOf, (one_le_div_sixty (now - r.downSince)).mpr hd]

theorem processAlive_some_short (s : Store) (ip name : String) (now : Nat)
    (r : IncidentRecord) (aok : Bool) (h : assocFind s.active ip = some r)
    (hd : now - r.downSince < 60) :
    processAlive s ip name now aok =
      .ok { active := assocDel s.active ip, history := s.history } [] := by
  have : ¬ (1 ≤ (now - r.downSince) / 60) := by
    rw [one_le_div_sixty]; omega
  simp [processAlive, h, this]

theorem processAlive_some_archiveFail (s : Store) (ip name : String)
    (now : Nat) (r : IncidentRecord) (h : assocFind s.active ip = some r)
    (hd : 60 ≤ now - r.downSince) :
    processAlive s ip name now false =
      .err { active := assocDel s.active ip, history := s.history }
        "insert_one raised" := by
  simp [processAlive, h, (one_le_div_sixty (now - r.downSince)).mpr hd]

/-! ### Sequences of consecutive down-ticks for one peer -/

/-- Iterate `processDown` for one peer over a list of tick times,
collecting the alerts sent. -/
def runDownTicks (ip name serverId : String) : List Nat → Store → Store × List Alert
  | [], s => (s, [])
  | t :: ts, s =>
      let r := processDown s ip name serverId t
      let rest := runDownTicks ip name serverId ts r.1
      (rest.1, r.2 ++ rest.2)

theorem runDownTicks_append (ip name sid : String) (as bs : List Nat)
    (s : Store) :
    runDownTicks ip name sid (as ++ bs) s =
      ((runDownTicks ip name sid bs (runDownTicks ip name sid as s).1).1,
       (runDownTicks ip name sid as s).2 ++
         (runDownTicks ip name sid bs (runDownTicks ip name sid as s).1).2) := by
  induction as generalizing s with
  | nil => simp [runDownTicks]
  | cons t ts ih => simp [runDownTicks, ih]

/-- Down-ticks on which the alert-timing policy is quiet leave the
record's `down_since` and `last_alert_sent_at` untouched and send no
alert; the only change is the `$set`/`$addToSet` refresh. -/
theorem runDownTicks_quiet (ip name sid : String) (times : List Nat)
    (s : Store) (r : IncidentRecord) (h : assocFind s.active ip = some r)
    (hq : ∀ t ∈ times, alertDue r.downSince r.lastAlertSentAt t = false) :
    runDownTicks ip name sid times s =
      (if times = [] then s
       else { s with active := assocSet s.active ip (downUpd r name sid) },
       []) := by
  induction times generalizing s r with
  | nil => simp [runDownTicks]
  | cons t ts ih =>
      have hq0 : alertDue r.downSince r.lastAlertSentAt t = false :=
        hq t (by simp)
      have hstep := processDown_existing s ip name sid t r h
      rw [hq0] at hstep
      simp only [Bool.false_eq_true, if_false] at hstep
      have hfind : assocFind
          (assocSet s.active ip (downUpd r name sid)) ip
          = some (downUpd r name sid) := assocFind_set_self _ _ _
      have hq' : ∀ u ∈ ts,
          alertDue (downUpd r name sid).downSince
            (downUpd r name sid).lastAlertSentAt u = false := by
        intro u hu
        simpa using hq u (by simp [hu])
      have ihx := ih { s with active := assocSet s.active ip (downUpd r name sid) }
        (downUpd r name sid) hfind hq'
      simp only [runDownTicks, hstep, ihx]
      by_cases hts : ts = []
      · simp [hts]
      · simp only [hts, if_neg hts, if_false]
        simp [downUpd_idem, assocSet_assocSet]

/-- A single down-tick on which the alert-timing policy fires: exactly
one crash alert is sent, carrying the accumulated witnesses and the
reminder marker, and `last_alert_sent_at` is stamped with the tick
time. -/
theorem runDownTicks_single_due (ip name sid : String) (tk : Nat)
    (s : Store) (r : IncidentRecord) (h : assocFind s.active ip = some r)
    (hd : alertDue r.downSince r.lastAlertSentAt tk = true) :
    runDownTicks ip name sid [tk] s =
      ({ s with active := (assocSet s.active ip
            { status := "down", targetName := name,
              downSince := r.downSince, lastAlertSentAt := some tk,
              witnesses := addToSet r.witnesses sid }) },
       [Alert.crash name ip ((tk - r.downSince) / 60)
          (addToSet r.witnesses sid) r.lastAlertSentAt.isSome]) := by
  have hstep := processDown_existing s ip name sid tk r h
  rw [hd] at hstep
  simp only [if_true] at hstep
  simp [runDownTicks, hstep]

/-- Over a run of down-ticks whose prefix is quiet and whose last tick
is due, exactly one crash alert is sent, on the last tick. -/
theorem runDownTicks_first_due (ip name sid : String) (pre : List Nat)
    (tk : Nat) (s : Store) (r : IncidentRecord)
    (h : assocFind s.active ip = some r)
    (hq : ∀ t ∈ pre, alertDue r.downSince r.lastAlertSentAt t = false)
    (hd : alertDue r.downSince r.lastAlertSentAt tk = true) :
    (runDownTicks ip name sid (pre ++ [tk]) s).2 =
      [Alert.crash name ip ((tk - r.downSince) / 60)
         (addToSet r.witnesses sid) r.lastAlertSentAt.isSome] := by
  rw [runDownTicks_append]
  rw [runDownTicks_quiet ip name sid pre s r h hq]
  by_cases hpre : pre = []
  · simp only [hpre, if_true, List.nil_append]
    rw [runDownTicks_single_due ip name sid tk s r h hd]
  · simp only [if_neg hpre]
    have hfind : assocFind
        (assocSet s.active ip (downUpd r name sid)) ip
        = some (downUpd r name sid) := assocFind_set_self _ _ _
    have hd' : alertDue (downUpd r name sid).downSince
        (downUpd r name sid).lastAlertSentAt tk = true := by simpa using hd
    rw [runDownTicks_single_due ip name sid tk _ (downUpd r name sid) hfind hd']
    simp [addToSet_idem]

/-! ### Retry loop facts -/

/-- The retry loop fully evaluated: it pings attempt indices 0, 1, 2 in
order, stopping at the first success. -/
theorem retrySeq_cases (p : Nat → Bool) :
    retrySeq p =
      if p 0 then (true, 1)
      else if p 1 then (true, 2)
      else if p 2 then (true, 3)
      else (false, 3) := by
  cases hp0 : p 0 <;> cases hp1 : p 1 <;> cases hp2 : p 2 <;>
    simp [retrySeq, retryGo, MAX_RETRIES, hp0, hp1, hp2]

/-! ### Shapes of the alerts each code path can emit -/

def isIsolationAlert : Alert → Bool
  | .isolation _ => true
  | _ => false

def resultAlerts : PeerResult → List Alert
  | .ok _ as => as
  | .err _ _ => []

def resultStore : PeerResult → Store
  | .ok s _ => s
  | .err s _ => s

theorem processDown_no_isolation (s : Store) (ip name sid : String)
    (now : Nat) :
    ∀ a ∈ (processDown s ip name sid now).2, isIsolationAlert a = false := by
  cases hf : assocFind s.active ip with
  | none => rw [processDown_new s ip name sid now hf]; simp
  | some r =>
      rw [processDown_existing s ip name sid now r hf]
      by_cases hdue : alertDue r.downSince r.lastAlertSentAt now = true <;>
        simp [hdue, isIsolationAlert]

theorem processAlive_no_isolation (s : Store) (ip name : String) (now : Nat)
    (aok : Bool) :
    ∀ a ∈ resultAlerts (processAlive s ip name now aok),
      isIsolationAlert a = false := by
  cases hf : assocFind s.active ip with
  | none => simp [processAlive, hf, resultAlerts]
  | some r =>
      simp only [processAlive, hf]
      by_cases h1 : 1 ≤ (now - r.downSince) / 60 <;> cases aok <;>
        simp [h1, resultAlerts, isIsolationAlert]

theorem peerStep_no_isolation (env : Env) (sid : String)
    (pr : List (String × Bool)) (t : Target) (s : Store) :
    ∀ a ∈ resultAlerts (peerStep env sid pr t s),
      isIsolationAlert a = false := by
  unfold peerStep
  by_cases h1 : (assocFind pr t.ip).getD false = true
  · simpa [h1] using processAlive_no_isolation s t.ip t.name (env.nowOf t) (env.archiveOk t)
  · by_cases h2 : env.midConn t = true
    · by_cases h3 : (retrySeq (env.retryPing t)).1 = true
      · simpa [h1, h2, h3] using
          processAlive_no_isolation s t.ip t.name (env.nowOf t) (env.archiveOk t)
      · have := processDown_no_isolation s t.ip t.name sid (env.nowOf t)
        simp only [Bool.not_eq_true] at h1 h3
        simpa [h1, h2, h3, resultAlerts] using this
    · simp only [Bool.not_eq_true] at h1 h2
      simp [h1, h2, resultAlerts]

theorem runPeers_no_isolation (step : Target → Store → PeerResult)
    (hstep : ∀ t s, ∀ a ∈ resultAlerts (step t s), isIsolationAlert a = false)
    (ts : List Target) (s : Store) :
    ∀ a ∈ (runPeers step ts s).2.1, isIsolationAlert a = false := by
  induction ts generalizing s with
  | nil => simp [runPeers]
  | cons t ts ih =>
      cases hres : step t s with
      | ok s' as =>
          intro a ha
          simp only [runPeers, hres, List.mem_append] at ha
          rcases ha with ha | ha
          · exact hstep t s a (by simpa [hres, resultAlerts] using ha)
          · exact ih s' a ha
      | err s' msg =>
          intro a ha
          simp only [runPeers, hres] at ha
          exact ih s' a ha

/-! ### The isolation-calc gate -/

theorem successCount_eq_countP (p : Target → Bool) (ts : List Target) :
    successCount p ts = ts.countP p := by
  have aux : ∀ (l : List Target) (n : Nat),
      l.foldl (fun n t => if p t then n + 1 else n) n = n + l.countP p := by
    intro l
    induction l with
    | nil => simp
    | cons t tl ih =>
        intro n
        by_cases h : p t = true <;> (simp [List.countP_cons, h, ih]; try omega)
  simpa [successCount] using aux ts 0

theorem isIsolatedCalc_iff (p : Target → Bool) (ts : List Target) :
    isIsolatedCalc p ts = true ↔
      0 < ts.length ∧ ∀ t ∈ ts, p t = false := by
  simp [isIsolatedCalc, successCount_eq_countP, List.countP_eq_zero]

/-! ### Prober (lines 59-85) -/

/-- The observable outcome of an `httpx` GET: a response with a status
code, or any raised exception (connection error, timeout, ...). -/
inductive HttpResult where
  | response (status : Nat)
  | failure
deriving Repr, DecidableEq

/-- `check_external_connectivity` (lines 70-77): `resp.status_code == 200`
on a response; the bare `except` turns every raised exception into
`False`. -/
def check_external_connectivity : HttpResult → Bool
  | .response code => code == 200
  | .failure => false

/-- `ping_peer` (lines 79-85): same decision on the peer's response. -/
def ping_peer : HttpResult → Bool
  | .response code => code == 200
  | .failure => false

/-- Modelled from the spec's words for comparison: "success with a
200-class response", i.e. any 2xx status. -/
def is200ClassSuccess (r : HttpResult) : Prop :=
  ∃ c, r = .response c ∧ 200 ≤ c ∧ c ≤ 299

/-! ### Multi-tick facts for the loop guards -/

theorem runTicks_unavailable (targets : List Target) (sid : String)
    (es : List Env) (was : Bool) (s : Store)
    (h : ∀ e ∈ es, e.storeAvailable = false) :
    runTicks targets sid es was s = (was, s, []) := by
  induction es with
  | nil => simp [runTicks]
  | cons e es ih =>
      have he : e.storeAvailable = false := h e (by simp)
      simp [runTicks, tick, he, ih fun x hx => h x (by simp [hx])]

/-! ## Claims -/

/-- C9 counterexample: the claim says the probers return true if and
only if the GET succeeds with a 200-class response, but on a 204
response (a 200-class success) both `check_external_connectivity` and
`ping_peer` return false, because the code compares the status code to
200 exactly. -/
theorem c9_counterexample :
    check_external_connectivity (.response 204) = false ∧
    is200ClassSuccess (.response 204) ∧
    ping_peer (.response 204) = false :=
  ⟨rfl, ⟨204, rfl, by norm_num, by norm_num⟩, rfl⟩

/-- C9 (amended): `check_external_connectivity` and `ping_peer` return
true if and only if the HTTP GET succeeds with status code exactly 200;
every network error, timeout or non-200 response yields false (and the
bare `except` means they never raise). -/
theorem c9_amended_prober_contract (r : HttpResult) :
    (check_external_connectivity r = true ↔ r = .response 200) ∧
    (ping_peer r = true ↔ r = .response 200) := by
  cases r with
  | response code => simp [check_external_connectivity, ping_peer]
  | failure => simp [check_external_connectivity, ping_peer]

/-- C2: for a peer with an existing active IncidentRecord, a later
down-tick's upsert touches only `status`, `target_name` and `witnesses`:
`down_since` and `last_alert_sent_at` are `$setOnInsert` fields and stay
unchanged, and after the full down-tick processing the stored record
still has its original `down_since`. -/
theorem c2_down_since_immutable (s : Store) (ip name sid : String)
    (now : Nat) (r : IncidentRecord)
    (h : assocFind s.active ip = some r) :
    assocFind (upsertDown s.active ip name sid now) ip =
      some (downUpd r name sid)
    ∧ (downUpd r name sid).downSince = r.downSince
    ∧ (downUpd r name sid).lastAlertSentAt = r.lastAlertSentAt
    ∧ ∃ r', assocFind (processDown s ip name sid now).1.active ip = some r'
        ∧ r'.downSince = r.downSince := by
  refine ⟨?_, rfl, rfl, ?_⟩
  · simp [upsertDown, h, assocFind_set_self, downUpd]
  · rw [processDown_existing s ip name sid now r h]
    by_cases hdue : alertDue r.downSince r.lastAlertSentAt now = true
    · simp only [hdue, if_true]
      exact ⟨_, assocFind_set_self _ _ _, rfl⟩
    · simp only [hdue, if_false, Bool.false_eq_true]
      exact ⟨_, assocFind_set_self _ _ _, rfl⟩

theorem c2_witness :
    assocFind (Store.mk [("10.0.0.2",
        IncidentRecord.mk "down" "node-b" 1000 none ["w1"])] []).active
        "10.0.0.2"
      = some (IncidentRecord.mk "down" "node-b" 1000 none ["w1"])
    ∧ (assocFind (upsertDown (Store.mk [("10.0.0.2",
          IncidentRecord.mk "down" "node-b" 1000 none ["w1"])] []).active
          "10.0.0.2" "node-b" "srv-a" 1030) "10.0.0.2" =
        some (downUpd (IncidentRecord.mk "down" "node-b" 1000 none ["w1"])
          "node-b" "srv-a")
      ∧ (downUpd (IncidentRecord.mk "down" "node-b" 1000 none ["w1"])
          "node-b" "srv-a").downSince =
          (IncidentRecord.mk "down" "node-b" 1000 none ["w1"]).downSince
      ∧ (downUpd (IncidentRecord.mk "down" "node-b" 1000 none ["w1"])
          "node-b" "srv-a").lastAlertSentAt =
          (IncidentRecord.mk "down" "node-b" 1000 none ["w1"]).lastAlertSentAt
      ∧ ∃ r', assocFind (processDown (Store.mk [("10.0.0.2",
            IncidentRecord.mk "down" "node-b" 1000 none ["w1"])] [])
            "10.0.0.2" "node-b" "srv-a" 1030).1.active "10.0.0.2" = some r'
          ∧ r'.downSince =
            (IncidentRecord.mk "down" "node-b" 1000 none ["w1"]).downSince) :=
  ⟨by decide,
   c2_down_since_immutable
     (Store.mk [("10.0.0.2",
        IncidentRecord.mk "down" "node-b" 1000 none ["w1"])] [])
     "10.0.0.2" "node-b" "srv-a" 1030
     (IncidentRecord.mk "down" "node-b" 1000 none ["w1"]) (by decide)⟩

/-- C3: for a peer whose active record has `last_alert_sent_at = null`,
a run of down-ticks all earlier than 3 minutes after `down_since` sends
no crash alert at all, and appending a first tick at which
`time_down >= 3` minutes makes the whole run send exactly one crash
alert — on that tick, not marked as a reminder, with the accumulated
witnesses. -/
theorem c3_confirmation_delay (s : Store) (ip name sid : String)
    (r : IncidentRecord) (pre : List Nat) (tk : Nat)
    (h : assocFind s.active ip = some r)
    (hla : r.lastAlertSentAt = none)
    (hpre : ∀ t ∈ pre, t - r.downSince < CONFIRMATION_DELAY_MINUTES * 60)
    (htk : CONFIRMATION_DELAY_MINUTES * 60 ≤ tk - r.downSince) :
    (runDownTicks ip name sid pre s).2 = []
    ∧ (runDownTicks ip name sid (pre ++ [tk]) s).2 =
        [Alert.crash name ip ((tk - r.downSince) / 60)
           (addToSet r.witnesses sid) false] := by
  have hq : ∀ t ∈ pre, alertDue r.downSince r.lastAlertSentAt t = false := by
    intro t ht
    have := hpre t ht
    simp [alertDue, hla]
    omega
  have hd : alertDue r.downSince r.lastAlertSentAt tk = true := by
    simp [alertDue, hla]
    omega
  constructor
  · rw [runDownTicks_quiet ip name sid pre s r h hq]
  · have := runDownTicks_first_due ip name sid pre tk s r h hq hd
    rwa [hla] at this

theorem c3_witness :
    assocFind (Store.mk [("10.0.0.2",
        IncidentRecord.mk "down" "node-b" 1000 none ["w1"])] []).active
        "10.0.0.2"
      = some (IncidentRecord.mk "down" "node-b" 1000 none ["w1"])
    ∧ (IncidentRecord.mk "down" "node-b" 1000 none ["w1"]).lastAlertSentAt
        = none
    ∧ (∀ t ∈ [1030, 1100, 1179], t -
        (IncidentRecord.mk "down" "node-b" 1000 none ["w1"]).downSince <
        CONFIRMATION_DELAY_MINUTES * 60)
    ∧ CONFIRMATION_DELAY_MINUTES * 60 ≤ 1190 -
        (IncidentRecord.mk "down" "node-b" 1000 none ["w1"]).downSince
    ∧ ((runDownTicks "10.0.0.2" "node-b" "srv-a" [1030, 1100, 1179]
          (Store.mk [("10.0.0.2",
            IncidentRecord.mk "down" "node-b" 1000 none ["w1"])] [])).2 = []
      ∧ (runDownTicks "10.0.0.2" "node-b" "srv-a" ([1030, 1100, 1179] ++ [1190])
          (Store.mk [("10.0.0.2",
            IncidentRecord.mk "down" "node-b" 1000 none ["w1"])] [])).2 =
          [Alert.crash "node-b" "10.0.0.2" ((1190 - 1000) / 60)
             (addToSet ["w1"] "srv-a") false]) :=
  ⟨by decide, by decide, by decide, by decide,
   c3_confirmation_delay
     (Store.mk [("10.0.0.2",
        IncidentRecord.mk "down" "node-b" 1000 none ["w1"])] [])
     "10.0.0.2" "node-b" "srv-a"
     (IncidentRecord.mk "down" "node-b" 1000 none ["w1"]) [1030, 1100, 1179]
     1190 (by decide) (by decide) (by decide) (by decide)⟩

/-- C4: for a peer whose active record has `last_alert_sent_at = T`,
down-ticks with `now - T <= 2` hours send no alert, and appending the
first tick with `now - T > 2` hours makes the run send exactly one
alert — a reminder (marker true) carrying the record's accumulated
witness set. -/
theorem c4_reminder_cadence (s : Store) (ip name sid : String)
    (r : IncidentRecord) (pre : List Nat) (tk T : Nat)
    (h : assocFind s.active ip = some r)
    (hla : r.lastAlertSentAt = some T)
    (hTd : r.downSince ≤ T)
    (hpre : ∀ t ∈ pre, t - T ≤ REMINDER_INTERVAL_HOURS * 3600)
    (htk : REMINDER_INTERVAL_HOURS * 3600 < tk - T) :
    (runDownTicks ip name sid pre s).2 = []
    ∧ (runDownTicks ip name sid (pre ++ [tk]) s).2 =
        [Alert.crash name ip ((tk - r.downSince) / 60)
           (addToSet r.witnesses sid) true] := by
  have hq : ∀ t ∈ pre, alertDue r.downSince r.lastAlertSentAt t = false := by
    intro t ht
    have := hpre t ht
    simp [alertDue, hla]
    intro
    omega
  have h180 : CONFIRMATION_DELAY_MINUTES * 60 ≤ tk - r.downSince := by
    unfold CONFIRMATION_DELAY_MINUTES
    unfold REMINDER_INTERVAL_HOURS at htk
    omega
  have hd : alertDue r.downSince r.lastAlertSentAt tk = true := by
    rw [hla]
    simp [alertDue, h180, htk]
  constructor
  · rw [runDownTicks_quiet ip name sid pre s r h hq]
  · have := runDownTicks_first_due ip name sid pre tk s r h hq hd
    rwa [hla] at this

theorem c4_witness :
    assocFind (Store.mk [("10.0.0.2",
        IncidentRecord.mk "down" "node-b" 1000 (some 1200) ["w1"])] []).active
        "10.0.0.2"
      = some (IncidentRecord.mk "down" "node-b" 1000 (some 1200) ["w1"])
    ∧ (IncidentRecord.mk "down" "node-b" 1000 (some 1200) ["w1"]).lastAlertSentAt
        = some 1200
    ∧ (IncidentRecord.mk "down" "node-b" 1000 (some 1200) ["w1"]).downSince ≤ 1200
    ∧ (∀ t ∈ [2000, 8000, 8400], t - 1200 ≤ REMINDER_INTERVAL_HOURS * 3600)
    ∧ REMINDER_INTERVAL_HOURS * 3600 < 8401 - 1200
    ∧ ((runDownTicks "10.0.0.2" "node-b" "srv-a" [2000, 8000, 8400]
          (Store.mk [("10.0.0.2",
            IncidentRecord.mk "down" "node-b" 1000 (some 1200) ["w1"])] [])).2
        = []
      ∧ (runDownTicks "10.0.0.2" "node-b" "srv-a" ([2000, 8000, 8400] ++ [8401])
          (Store.mk [("10.0.0.2",
            IncidentRecord.mk "down" "node-b" 1000 (some 1200) ["w1"])] [])).2 =
          [Alert.crash "node-b" "10.0.0.2" ((8401 - 1000) / 60)
             (addToSet ["w1"] "srv-a") true]) :=
  ⟨by decide, by decide, by decide, by decide, by decide,
   c4_reminder_cadence
     (Store.mk [("10.0.0.2",
        IncidentRecord.mk "down" "node-b" 1000 (some 1200) ["w1"])] [])
     "10.0.0.2" "node-b" "srv-a"
     (IncidentRecord.mk "down" "node-b" 1000 (some 1200) ["w1"])
     [2000, 8000, 8400] 8401 1200
     (by decide) (by decide) (by decide) (by decide) (by decide)⟩

/-- C5: when a peer with an active IncidentRecord is observed alive, the
record is always deleted from the active collection; exactly when the
down duration was at least one minute, an equivalent HistoryRecord
(status "resolved", same `down_since`, with `recovered_at` and a key
derived from the ip and the resolution timestamp) is archived and
exactly one recovery alert with the peer name and downtime in minutes is
sent; a sub-minute blip is cleared with no alert and no HistoryRecord. -/
theorem c5_recovery_round_trip (s : Store) (ip name : String) (now : Nat)
    (r : IncidentRecord)
    (h : assocFind s.active ip = some r)
    (huniq : (s.active.map Prod.fst).Nodup) :
    assocFind (resultStore (processAlive s ip name now true)).active ip = none
    ∧ (60 ≤ now - r.downSince →
        processAlive s ip name now true =
          .ok { active := assocDel s.active ip,
                history := s.history ++ [histOf ip r now] }
            [Alert.recovery name ip ((now - r.downSince) / 60)]
        ∧ (histOf ip r now).status = "resolved"
        ∧ (histOf ip r now).downSince = r.downSince
        ∧ (histOf ip r now).recoveredAt = now
        ∧ (histOf ip r now).key = ip ++ "_" ++ toString now
        ∧ (histOf ip r now).witnesses = r.witnesses)
    ∧ (now - r.downSince < 60 →
        processAlive s ip name now true =
          .ok { active := assocDel s.active ip, history := s.history } []) := by
  refine ⟨?_, ?_, ?_⟩
  · by_cases hd : 60 ≤ now - r.downSince
    · rw [processAlive_some_long s ip name now r h hd]
      exact assocFind_del_self s.active ip huniq
    · rw [processAlive_some_short s ip name now r true h (by omega)]
      exact assocFind_del_self s.active ip huniq
  · intro hd
    exact ⟨processAlive_some_long s ip name now r h hd, rfl, rfl, rfl, rfl, rfl⟩
  · intro hd
    exact processAlive_some_short s ip name now r true h hd

theorem c5_witness :
    assocFind (Store.mk [("10.0.0.2",
        IncidentRecord.mk "down" "node-b" 1000 none ["w1"])] []).active
        "10.0.0.2"
      = some (IncidentRecord.mk "down" "node-b" 1000 none ["w1"])
    ∧ ((Store.mk [("10.0.0.2",
        IncidentRecord.mk "down" "node-b" 1000 none ["w1"])] []).active.map
          Prod.fst).Nodup
    ∧ (assocFind (resultStore (processAlive (Store.mk [("10.0.0.2",
          IncidentRecord.mk "down" "node-b" 1000 none ["w1"])] [])
          "10.0.0.2" "node-b" 1090 true)).active "10.0.0.2" = none
      ∧ (60 ≤ 1090 - (IncidentRecord.mk "down" "node-b" 1000 none
            ["w1"]).downSince →
          processAlive (Store.mk [("10.0.0.2",
            IncidentRecord.mk "down" "node-b" 1000 none ["w1"])] [])
            "10.0.0.2" "node-b" 1090 true =
            .ok { active := assocDel (Store.mk [("10.0.0.2",
                    IncidentRecord.mk "down" "node-b" 1000 none ["w1"])]
                    []).active "10.0.0.2",
                  history := [] ++ [histOf "10.0.0.2"
                    (IncidentRecord.mk "down" "node-b" 1000 none ["w1"]) 1090] }
              [Alert.recovery "node-b" "10.0.0.2"
                 ((1090 - (IncidentRecord.mk "down" "node-b" 1000 none
                    ["w1"]).downSince) / 60)]
          ∧ (histOf "10.0.0.2" (IncidentRecord.mk "down" "node-b" 1000 none
              ["w1"]) 1090).status = "resolved"
          ∧ (histOf "10.0.0.2" (IncidentRecord.mk "down" "node-b" 1000 none
              ["w1"]) 1090).downSince =
              (IncidentRecord.mk "down" "node-b" 1000 none ["w1"]).downSince
          ∧ (histOf "10.0.0.2" (IncidentRecord.mk "down" "node-b" 1000 none
              ["w1"]) 1090).recoveredAt = 1090
          ∧ (histOf "10.0.0.2" (IncidentRecord.mk "down" "node-b" 1000 none
              ["w1"]) 1090).key = "10.0.0.2" ++ "_" ++ toString 1090
          ∧ (histOf "10.0.0.2" (IncidentRecord.mk "down" "node-b" 1000 none
              ["w1"]) 1090).witnesses =
              (IncidentRecord.mk "down" "node-b" 1000 none ["w1"]).witnesses)
      ∧ (1090 - (IncidentRecord.mk "down" "node-b" 1000 none
            ["w1"]).downSince < 60 →
          processAlive (Store.mk [("10.0.0.2",
            IncidentRecord.mk "down" "node-b" 1000 none ["w1"])] [])
            "10.0.0.2" "node-b" 1090 true =
            .ok { active := assocDel (Store.mk [("10.0.0.2",
                    IncidentRecord.mk "down" "node-b" 1000 none ["w1"])]
                    []).active "10.0.0.2",
                  history := [] } [])) :=
  ⟨by decide, by decide,
   c5_recovery_round_trip
     (Store.mk [("10.0.0.2",
        IncidentRecord.mk "down" "node-b" 1000 none ["w1"])] [])
     "10.0.0.2" "node-b" 1090
     (IncidentRecord.mk "down" "node-b" 1000 none ["w1"])
     (by decide) (by decide)⟩

/-- C10: resolution is not atomic — the active record is deleted before
the history insert; if the insert then fails, the incident is in neither
collection: the store state carried out of the failing step has no
active record for the peer and an unchanged history. -/
theorem c10_nonatomic_resolution (s : Store) (ip name : String) (now : Nat)
    (r : IncidentRecord)
    (h : assocFind s.active ip = some r)
    (huniq : (s.active.map Prod.fst).Nodup)
    (hd : 60 ≤ now - r.downSince) :
    processAlive s ip name now false =
      .err { active := assocDel s.active ip, history := s.history }
        "insert_one raised"
    ∧ assocFind (assocDel s.active ip) ip = none := by
  exact ⟨processAlive_some_archiveFail s ip name now r h hd,
         assocFind_del_self s.active ip huniq⟩

theorem c10_witness :
    assocFind (Store.mk [("10.0.0.2",
        IncidentRecord.mk "down" "node-b" 1000 none ["w1"])] []).active
        "10.0.0.2"
      = some (IncidentRecord.mk "down" "node-b" 1000 none ["w1"])
    ∧ ((Store.mk [("10.0.0.2",
        IncidentRecord.mk "down" "node-b" 1000 none ["w1"])] []).active.map
          Prod.fst).Nodup
    ∧ 60 ≤ 1090 - (IncidentRecord.mk "down" "node-b" 1000 none
        ["w1"]).downSince
    ∧ (processAlive (Store.mk [("10.0.0.2",
          IncidentRecord.mk "down" "node-b" 1000 none ["w1"])] [])
          "10.0.0.2" "node-b" 1090 false =
        .err { active := assocDel (Store.mk [("10.0.0.2",
                IncidentRecord.mk "down" "node-b" 1000 none ["w1"])]
                []).active "10.0.0.2",
               history := [] } "insert_one raised"
      ∧ assocFind (assocDel (Store.mk [("10.0.0.2",
          IncidentRecord.mk "down" "node-b" 1000 none ["w1"])] []).active
          "10.0.0.2") "10.0.0.2" = none) :=
  ⟨by decide, by decide, by decide,
   c10_nonatomic_resolution
     (Store.mk [("10.0.0.2",
        IncidentRecord.mk "down" "node-b" 1000 none ["w1"])] [])
     "10.0.0.2" "node-b" 1090
     (IncidentRecord.mk "down" "node-b" 1000 none ["w1"])
     (by decide) (by decide) (by decide)⟩

theorem retrySeq_attempts_le (p : Nat → Bool) :
    (retrySeq p).2 ≤ MAX_RETRIES := by
  rw [retrySeq_cases]
  by_cases hp0 : p 0 = true
  · simp [hp0, MAX_RETRIES]
  · by_cases hp1 : p 1 = true
    · simp [hp0, hp1, MAX_RETRIES]
    · by_cases hp2 : p 2 = true <;> simp [hp0, hp1, hp2, MAX_RETRIES]

theorem retrySeq_alive_iff (p : Nat → Bool) :
    (retrySeq p).1 = true ↔ ∃ i, i < MAX_RETRIES ∧ p i = true := by
  constructor
  · intro h1
    by_cases hp0 : p 0 = true
    · exact ⟨0, by norm_num [MAX_RETRIES], hp0⟩
    · by_cases hp1 : p 1 = true
      · exact ⟨1, by norm_num [MAX_RETRIES], hp1⟩
      · by_cases hp2 : p 2 = true
        · exact ⟨2, by norm_num [MAX_RETRIES], hp2⟩
        · rw [retrySeq_cases] at h1
          simp [hp0, hp1, hp2] at h1
  · rintro ⟨i, hi, hpi⟩
    rw [retrySeq_cases]
    by_cases hp0 : p 0 = true
    · simp [hp0]
    · by_cases hp1 : p 1 = true
      · simp [hp0, hp1]
      · by_cases hp2 : p 2 = true
        · simp [hp0, hp1, hp2]
        · exfalso
          unfold MAX_RETRIES at hi
          interval_cases i
          · exact hp0 hpi
          · exact hp1 hpi
          · exact hp2 hpi

theorem retrySeq_early_stop (p : Nat → Bool) :
    ∀ i, i + 1 < (retrySeq p).2 → p i = false := by
  intro i hi
  rw [retrySeq_cases] at hi
  by_cases hp0 : p 0 = true
  · simp [hp0] at hi
  · by_cases hp1 : p 1 = true
    · simp [hp0, hp1] at hi
      have hz : i = 0 := by omega
      subst hz
      simpa using hp0
    · by_cases hp2 : p 2 = true
      · simp [hp0, hp1, hp2] at hi
        have h01 : i = 0 ∨ i = 1 := by omega
        rcases h01 with h | h <;> subst h
        · simpa using hp0
        · simpa using hp1
      · simp [hp0, hp1, hp2] at hi
        have h01 : i = 0 ∨ i = 1 := by omega
        rcases h01 with h | h <;> subst h
        · simpa using hp0
        · simpa using hp1

theorem retrySeq_exhaust (p : Nat → Bool) :
    (retrySeq p).1 = false → (retrySeq p).2 = MAX_RETRIES := by
  intro h1
  rw [retrySeq_cases] at h1 ⊢
  by_cases hp0 : p 0 = true
  · simp [hp0] at h1
  · by_cases hp1 : p 1 = true
    · simp [hp0, hp1] at h1
    · by_cases hp2 : p 2 = true
      · simp [hp0, hp1, hp2] at h1
      · simp [hp0, hp1, hp2, MAX_RETRIES]

/-- C6: for a peer whose initial scan outcome is down, the engine first
re-checks external connectivity and, when that fails, skips the peer for
the tick with no store or alert action; otherwise it runs the retry
loop: at most `MAX_RETRIES` (3) ping attempts, one
`INITIAL_BACKOFF_SECONDS` (10s) wait before each attempt performed,
stopping at the first success (every attempt before the last performed
one failed), and the peer is then processed as alive exactly when some
retry succeeded. -/
theorem c6_down_confirmation (env : Env) (sid : String)
    (pr : List (String × Bool)) (t : Target) (s : Store)
    (hdown : (assocFind pr t.ip).getD false = false) :
    (env.midConn t = false → peerStep env sid pr t s = .ok s [])
    ∧ (retrySeq (env.retryPing t)).2 ≤ MAX_RETRIES
    ∧ retryWaited (env.retryPing t) =
        INITIAL_BACKOFF_SECONDS * (retrySeq (env.retryPing t)).2
    ∧ ((retrySeq (env.retryPing t)).1 = true ↔
        ∃ i, i < MAX_RETRIES ∧ env.retryPing t i = true)
    ∧ (∀ i, i + 1 < (retrySeq (env.retryPing t)).2 →
        env.retryPing t i = false)
    ∧ ((retrySeq (env.retryPing t)).1 = false →
        (retrySeq (env.retryPing t)).2 = MAX_RETRIES)
    ∧ (env.midConn t = true → (retrySeq (env.retryPing t)).1 = true →
        peerStep env sid pr t s =
          processAlive s t.ip t.name (env.nowOf t) (env.archiveOk t))
    ∧ (env.midConn t = true → (retrySeq (env.retryPing t)).1 = false →
        peerStep env sid pr t s =
          .ok (processDown s t.ip t.name sid (env.nowOf t)).1
              (processDown s t.ip t.name sid (env.nowOf t)).2) := by
  refine ⟨?_, retrySeq_attempts_le _, rfl, retrySeq_alive_iff _,
    retrySeq_early_stop _, retrySeq_exhaust _, ?_, ?_⟩
  · intro hmc
    simp [peerStep, hdown, hmc]
  · intro hmc hal
    simp [peerStep, hdown, hmc, hal]
  · intro hmc hal
    simp [peerStep, hdown, hmc, hal]

/-- Fixture data for the closed witness instances. -/
def wTarget : Target := { ip := "10.0.0.2", name := "node-b" }

def wTarget2 : Target := { ip := "10.0.0.3", name := "node-c" }

def wRec : IncidentRecord :=
  { status := "down", targetName := "node-b", downSince := 1000,
    lastAlertSentAt := none, witnesses := ["w1"] }

def wStore : Store := { active := [("10.0.0.2", wRec)], history := [] }

def wEnv : Env :=
  { storeAvailable := true, extConn := true, ping1 := fun _ => false,
    midConn := fun _ => true, retryPing := fun _ i => i == 1,
    archiveOk := fun _ => true, nowOf := fun _ => 1090 }

def wEnvFail : Env :=
  { storeAvailable := true, extConn := true, ping1 := fun _ => true,
    midConn := fun _ => false, retryPing := fun _ _ => false,
    archiveOk := fun _ => false, nowOf := fun _ => 1090 }

theorem c6_witness :
    (assocFind [("10.0.0.2", false)] wTarget.ip).getD false = false
    ∧ ((wEnv.midConn wTarget = false →
          peerStep wEnv "srv-a" [("10.0.0.2", false)] wTarget wStore =
            .ok wStore [])
      ∧ (retrySeq (wEnv.retryPing wTarget)).2 ≤ MAX_RETRIES
      ∧ retryWaited (wEnv.retryPing wTarget) =
          INITIAL_BACKOFF_SECONDS * (retrySeq (wEnv.retryPing wTarget)).2
      ∧ ((retrySeq (wEnv.retryPing wTarget)).1 = true ↔
          ∃ i, i < MAX_RETRIES ∧ wEnv.retryPing wTarget i = true)
      ∧ (∀ i, i + 1 < (retrySeq (wEnv.retryPing wTarget)).2 →
          wEnv.retryPing wTarget i = false)
      ∧ ((retrySeq (wEnv.retryPing wTarget)).1 = false →
          (retrySeq (wEnv.retryPing wTarget)).2 = MAX_RETRIES)
      ∧ (wEnv.midConn wTarget = true →
          (retrySeq (wEnv.retryPing wTarget)).1 = true →
          peerStep wEnv "srv-a" [("10.0.0.2", false)] wTarget wStore =
            processAlive wStore wTarget.ip wTarget.name (wEnv.nowOf wTarget)
              (wEnv.archiveOk wTarget))
      ∧ (wEnv.midConn wTarget = true →
          (retrySeq (wEnv.retryPing wTarget)).1 = false →
          peerStep wEnv "srv-a" [("10.0.0.2", false)] wTarget wStore =
            .ok (processDown wStore wTarget.ip wTarget.name "srv-a"
                   (wEnv.nowOf wTarget)).1
                (processDown wStore wTarget.ip wTarget.name "srv-a"
                   (wEnv.nowOf wTarget)).2)) :=
  ⟨by decide,
   c6_down_confirmation wEnv "srv-a" [("10.0.0.2", false)] wTarget wStore
     (by decide)⟩

/-- C7: an exception from one peer's store/notification processing is
caught: the per-peer loop records the logged message, keeps the store
mutations the failed step had already issued, and continues with all
remaining peers of the same tick. -/
theorem c7_per_peer_failure_contained (step : Target → Store → PeerResult)
    (t : Target) (ts : List Target) (s s' : Store) (msg : String)
    (herr : step t s = .err s' msg) :
    runPeers step (t :: ts) s =
      ((runPeers step ts s').1, (runPeers step ts s').2.1,
       msg :: (runPeers step ts s').2.2) := by
  simp [runPeers, herr]

theorem c7_witness :
    peerStep wEnvFail "srv-a" [("10.0.0.2", true)] wTarget wStore =
      .err (Store.mk [] []) "insert_one raised"
    ∧ runPeers (peerStep wEnvFail "srv-a" [("10.0.0.2", true)])
        (wTarget :: [wTarget2]) wStore =
      ((runPeers (peerStep wEnvFail "srv-a" [("10.0.0.2", true)]) [wTarget2]
          (Store.mk [] [])).1,
       (runPeers (peerStep wEnvFail "srv-a" [("10.0.0.2", true)]) [wTarget2]
          (Store.mk [] [])).2.1,
       "insert_one raised" ::
         (runPeers (peerStep wEnvFail "srv-a" [("10.0.0.2", true)]) [wTarget2]
            (Store.mk [] [])).2.2) :=
  ⟨by decide,
   c7_per_peer_failure_contained
     (peerStep wEnvFail "srv-a" [("10.0.0.2", true)]) wTarget [wTarget2]
     wStore (Store.mk [] []) "insert_one raised" (by decide)⟩

/-- C8: when the store is unavailable (the collection handle is None),
the tick is a pure pause: no probing, no per-peer processing, no alerts,
state unchanged — and this holds across any run of such ticks; as soon
as a tick sees the store available, the loop body past the guard
(normal processing) runs. -/
theorem c8_store_unavailable_degraded (env : Env) (targets : List Target)
    (sid : String) (was : Bool) (s : Store) (es : List Env)
    (hoff : env.storeAvailable = false)
    (hall : ∀ e ∈ es, e.storeAvailable = false) :
    tick env targets sid was s =
      { store := s, wasIsolated := was, alerts := [], errors := [],
        outcome := .waitingForDB }
    ∧ runTicks targets sid es was s = (was, s, [])
    ∧ (∀ env2 : Env, env2.storeAvailable = true →
        tick env2 targets sid was s = tickOnline env2 targets sid was s) := by
  refine ⟨by simp [tick, hoff], runTicks_unavailable targets sid es was s hall, ?_⟩
  intro env2 h2
  simp [tick, h2]

def wEnvOff : Env :=
  { storeAvailable := false, extConn := true, ping1 := fun _ => false,
    midConn := fun _ => true, retryPing := fun _ _ => false,
    archiveOk := fun _ => true, nowOf := fun _ => 1090 }

theorem c8_witness :
    wEnvOff.storeAvailable = false
    ∧ (∀ e ∈ [wEnvOff, wEnvOff], e.storeAvailable = false)
    ∧ (tick wEnvOff [wTarget] "srv-a" false wStore =
        { store := wStore, wasIsolated := false, alerts := [], errors := [],
          outcome := .waitingForDB }
      ∧ runTicks [wTarget] "srv-a" [wEnvOff, wEnvOff] false wStore =
          (false, wStore, [])
      ∧ (∀ env2 : Env, env2.storeAvailable = true →
          tick env2 [wTarget] "srv-a" false wStore =
            tickOnline env2 [wTarget] "srv-a" false wStore)) :=
  ⟨rfl, by decide,
   c8_store_unavailable_degraded wEnvOff [wTarget] "srv-a" false wStore
     [wEnvOff, wEnvOff] rfl (by decide)⟩

/-- C1: with the store available and external connectivity up,
`is_isolated` is true exactly when at least one peer is configured and
no scan ping succeeded; the tick emits an isolation alert exactly once
and exactly on the CONNECTED-to-ISOLATED edge (`is_isolated` true,
`was_isolated` false); and whenever `is_isolated` is true the tick
short-circuits: the store is untouched, the isolated flag is set, and no
crash/recovery processing (hence no other alert, no per-peer error)
happens. -/
theorem c1_isolation_gate (env : Env) (targets : List Target) (sid : String)
    (was : Bool) (s : Store)
    (hdb : env.storeAvailable = true)
    (hnet : env.extConn = true) :
    (isIsolatedCalc env.ping1 targets = true ↔
       0 < targets.length ∧ ∀ t ∈ targets, env.ping1 t = false)
    ∧ ((tick env targets sid was s).alerts.countP isIsolationAlert =
        if isIsolatedCalc env.ping1 targets = true ∧ was = false then 1
        else 0)
    ∧ (isIsolatedCalc env.ping1 targets = true →
        (tick env targets sid was s).store = s
        ∧ (tick env targets sid was s).wasIsolated = true
        ∧ (tick env targets sid was s).errors = []
        ∧ ∀ a ∈ (tick env targets sid was s).alerts,
            isIsolationAlert a = true) := by
  have htick : tick env targets sid was s = tickOnline env targets sid was s := by
    simp [tick, hdb]
  have hzero : ∀ a ∈ (runPeers (peerStep env sid (scanResults env.ping1 targets))
      targets s).2.1, isIsolationAlert a = false :=
    runPeers_no_isolation _ (fun t st => peerStep_no_isolation env sid _ t st)
      targets s
  refine ⟨isIsolatedCalc_iff _ _, ?_, ?_⟩
  · rw [htick]
    by_cases hiso : isIsolatedCalc env.ping1 targets = true
    · cases was with
      | false =>
          simp [tickOnline, hnet, hiso, isIsolationAlert]
      | true =>
          simp [tickOnline, hnet, hiso]
    · rw [Bool.not_eq_true] at hiso
      cases was with
      | false =>
          simp only [tickOnline, hnet, Bool.not_true, Bool.false_eq_true,
            if_false, hiso, Bool.false_and, Bool.and_false]
          have hpeers : (runPeers (peerStep env sid (scanResults env.ping1
              targets)) targets s).2.1.countP isIsolationAlert = 0 :=
            List.countP_eq_zero.mpr (fun a ha => by simp [hzero a ha])
          rw [List.countP_append]
          simp [hpeers, hiso, isIsolationAlert]
      | true =>
          simp only [tickOnline, hnet, Bool.not_true, Bool.false_eq_true,
            if_false, hiso, Bool.false_and, Bool.and_false]
          have hpeers : (runPeers (peerStep env sid (scanResults env.ping1
              targets)) targets s).2.1.countP isIsolationAlert = 0 :=
            List.countP_eq_zero.mpr (fun a ha => by simp [hzero a ha])
          rw [List.countP_append]
          simp [hpeers, hiso, isIsolationAlert]
  · intro hiso
    rw [htick]
    cases was with
    | false => simp [tickOnline, hnet, hiso, isIsolationAlert]
    | true => simp [tickOnline, hnet, hiso]

theorem c1_witness :
    wEnv.storeAvailable = true
    ∧ wEnv.extConn = true
    ∧ ((isIsolatedCalc wEnv.ping1 [wTarget] = true ↔
          0 < [wTarget].length ∧ ∀ t ∈ [wTarget], wEnv.ping1 t = false)
      ∧ ((tick wEnv [wTarget] "srv-a" false wStore).alerts.countP
            isIsolationAlert =
          if isIsolatedCalc wEnv.ping1 [wTarget] = true ∧ false = false then 1
          else 0)
      ∧ (isIsolatedCalc wEnv.ping1 [wTarget] = true →
          (tick wEnv [wTarget] "srv-a" false wStore).store = wStore
          ∧ (tick wEnv [wTarget] "srv-a" false wStore).wasIsolated = true
          ∧ (tick wEnv [wTarget] "srv-a" false wStore).errors = []
          ∧ ∀ a ∈ (tick wEnv [wTarget] "srv-a" false wStore).alerts,
              isIsolationAlert a = true)) :=
  ⟨rfl, rfl,
   c1_isolation_gate wEnv [wTarget] "srv-a" false wStore rfl rfl⟩

end GpuMonitor
